import Mathlib

/-!
Verification model of the TravelTracker application.

The Python source is shallowly embedded: dataclasses become structures,
monetary `float` values are modelled as exact rationals, `datetime.date`
values as proleptic-Gregorian (year, month, day) records with their
`toordinal` encoding, the SQLite database as explicit lists of rows, and
fallible construction as `Except`.
-/

namespace TravelTracker

/-! ## Calendar dates (model of Python `datetime.date`) -/

/-- A calendar date: year, month, day (proleptic Gregorian). -/
structure PDate where
  y : Nat
  m : Nat
  d : Nat
deriving DecidableEq, Repr

/-- Gregorian leap-year rule (as used by `datetime`). -/
def isLeapYear (y : Nat) : Bool :=
  (y % 4 == 0 && y % 100 != 0) || y % 400 == 0

/-- Number of days in a month of a given year. -/
def daysInMonth (y m : Nat) : Nat :=
  if m = 2 then (if isLeapYear y then 29 else 28)
  else if m = 4 ∨ m = 6 ∨ m = 9 ∨ m = 11 then 30
  else 31

/-- Days in all years strictly before year `y` (rata-die component). -/
def daysBeforeYear (y : Nat) : Nat :=
  365 * (y - 1) + (y - 1) / 4 - (y - 1) / 100 + (y - 1) / 400

/-- Days in the months of year `y` strictly before month `m`. -/
def daysBeforeMonth (y m : Nat) : Nat :=
  ((List.range (m - 1)).map (fun i => daysInMonth y (i + 1))).sum

/-- Model of `date.toordinal()`: day number in the proleptic Gregorian
calendar, with 0001-01-01 mapped to 1. -/
def toOrdinal (dt : PDate) : Nat :=
  daysBeforeYear dt.y + daysBeforeMonth dt.y dt.m + dt.d

/-- Model of Python date subtraction `(a - b).days`. -/
def dateDiff (a b : PDate) : Int :=
  (toOrdinal a : Int) - (toOrdinal b : Int)

/-- Model of Python date comparison `a < b` (ordinal order; on valid
dates this agrees with lexicographic (year, month, day) order). -/
def pdateLt (a b : PDate) : Bool :=
  decide (a.y < b.y ∨ (a.y = b.y ∧ (a.m < b.m ∨ (a.m = b.m ∧ a.d < b.d))))

/-! ## models.py -/

/-- `ExpenseCategory` enumeration from models.py. -/
inductive ExpenseCategory where
  | transport
  | accommodation
  | food
  | entertainment
  | shopping
  | sightseeing
  | other
deriving DecidableEq, Repr

/-- The fixed display-text value of each category (`.value` in Python). -/
def ExpenseCategory.value : ExpenseCategory → String
  | .transport => "Транспорт"
  | .accommodation => "Жильё"
  | .food => "Еда"
  | .entertainment => "Развлечения"
  | .shopping => "Шоппинг"
  | .sightseeing => "Достопримечательности"
  | .other => "Другое"

/-- All categories in declaration order. -/
def ExpenseCategory.all : List ExpenseCategory :=
  [.transport, .accommodation, .food, .entertainment, .shopping, .sightseeing, .other]

/-- `TripStatus` enumeration from models.py. -/
inductive TripStatus where
  | planned
  | inProgress
  | completed
  | cancelled
deriving DecidableEq, Repr

/-- The fixed display-text value of each status (`.value` in Python). -/
def TripStatus.value : TripStatus → String
  | .planned => "Запланировано"
  | .inProgress => "В процессе"
  | .completed => "Завершено"
  | .cancelled => "Отменено"

/-- The `Trip` dataclass from models.py. -/
structure Trip where
  id : Option Nat := none
  name : String := ""
  description : String := ""
  start_date : Option PDate := none
  end_date : Option PDate := none
  budget : Rat := 0
  actual_spent : Rat := 0
  currency : String := "USD"
  destination : String := ""
  status : TripStatus := .planned
  participants : String := ""
deriving DecidableEq, Repr

/-- `Trip.duration_days`: `(end_date - start_date).days + 1` when both
dates are present (date objects are always truthy in Python, so the
`if self.start_date and self.end_date` guard is a None test), else 0. -/
def Trip.duration_days (t : Trip) : Int :=
  match t.start_date, t.end_date with
  | some sd, some ed => dateDiff ed sd + 1
  | _, _ => 0

/-- `Trip.budget_balance` from models.py. -/
def Trip.budget_balance (t : Trip) : Rat :=
  t.budget - t.actual_spent

/-- The `Expense` dataclass from models.py (fields only; see
`Expense.make` for the validating constructor). -/
structure Expense where
  id : Option Nat := none
  trip_id : Nat := 0
  amount : Rat := 0
  currency : String := "USD"
  category : ExpenseCategory := .other
  date : Option PDate := none
  description : String := ""
  payment_method : String := "Наличные"
  location : String := ""
deriving DecidableEq, Repr

/-- Constructing an `Expense` in Python runs `__post_init__`, which
raises `ValueError` when `amount <= 0`; modelled as `Except`. -/
def Expense.make (id : Option Nat) (trip_id : Nat) (amount : Rat)
    (currency : String) (category : ExpenseCategory) (date : Option PDate)
    (description : String) (payment_method : String) (location : String) :
    Except String Expense :=
  if amount ≤ 0 then
    Except.error "Сумма расхода должна быть положительной"
  else
    Except.ok ⟨id, trip_id, amount, currency, category, date, description,
      payment_method, location⟩

/-! ## storage.py

The database state is the pair of tables created by `_init_db`, plus the
AUTOINCREMENT counters.  The schema declares
`FOREIGN KEY (trip_id) REFERENCES trips (id) ON DELETE CASCADE`, but the
code never executes `PRAGMA foreign_keys = ON`; SQLite keeps foreign-key
enforcement disabled by default (and Python's sqlite3 module does not
enable it), so the declared cascade has no run-time effect.  The
operations below model the run-time behaviour of the SQL statements. -/

/-- A row of the `trips` table (`status` stored as its text value). -/
structure TripRow where
  id : Nat
  name : String
  description : String
  start_date : Option PDate
  end_date : Option PDate
  budget : Rat
  actual_spent : Rat
  currency : String
  destination : String
  status : String
  participants : String
deriving DecidableEq, Repr

/-- A row of the `expenses` table (`category` stored as its text value). -/
structure ExpenseRow where
  id : Nat
  trip_id : Nat
  amount : Rat
  currency : String
  category : String
  date : Option PDate
  description : String
  payment_method : String
  location : String
deriving DecidableEq, Repr

/-- The SQLite database state owned by `TravelStorage`. -/
structure DB where
  trips : List TripRow
  expenses : List ExpenseRow
  next_trip_id : Nat := 1
  next_expense_id : Nat := 1
deriving DecidableEq, Repr

/-- The row inserted by `add_trip` for a given fresh id. -/
def tripRowOf (id : Nat) (t : Trip) : TripRow :=
  ⟨id, t.name, t.description, t.start_date, t.end_date, t.budget,
   t.actual_spent, t.currency, t.destination, t.status.value, t.participants⟩

/-- The row inserted by `add_expense` for a given fresh id. -/
def expenseRowOf (id : Nat) (e : Expense) : ExpenseRow :=
  ⟨id, e.trip_id, e.amount, e.currency, e.category.value, e.date,
   e.description, e.payment_method, e.location⟩

/-- `TravelStorage.add_trip`: INSERT into trips, return the new row id. -/
def add_trip (db : DB) (t : Trip) : DB × Nat :=
  let id := db.next_trip_id
  ({ db with trips := db.trips ++ [tripRowOf id t], next_trip_id := id + 1 }, id)

/-- `TravelStorage.add_expense`: INSERT into expenses (no validation at
this boundary and no foreign-key check), then
`UPDATE trips SET actual_spent = (SELECT COALESCE(SUM(amount), 0) FROM
expenses WHERE trip_id = ?) WHERE id = ?` — the sum is taken over the
table that already contains the new row. -/
def add_expense (db : DB) (e : Expense) : DB × Nat :=
  let id := db.next_expense_id
  let expenses := db.expenses ++ [expenseRowOf id e]
  let total := ((expenses.filter (fun r => r.trip_id = e.trip_id)).map
    (fun r => r.amount)).sum
  let trips := db.trips.map (fun tr =>
    if tr.id = e.trip_id then { tr with actual_spent := total } else tr)
  ({ db with trips := trips, expenses := expenses, next_expense_id := id + 1 }, id)

/-- SQLite `ORDER BY date DESC` comparison on the stored ISO-8601 text
dates: larger dates first, NULL (which SQLite sorts below every value)
last under DESC. -/
def dateDescLe (a b : Option PDate) : Bool :=
  match a, b with
  | none, none => true
  | none, some _ => false
  | some _, none => true
  | some x, some y => !pdateLt x y || decide (x = y)

/-- Insertion into a list sorted by `le`. -/
def insertSorted (le : ExpenseRow → ExpenseRow → Bool) (a : ExpenseRow) :
    List ExpenseRow → List ExpenseRow
  | [] => [a]
  | b :: bs => if le a b then a :: b :: bs else b :: insertSorted le a bs

/-- Insertion sort used to model SQL row ordering. -/
def sortRows (le : ExpenseRow → ExpenseRow → Bool) :
    List ExpenseRow → List ExpenseRow
  | [] => []
  | a :: as => insertSorted le a (sortRows le as)

/-- `TravelStorage.get_expenses_by_trip`:
`SELECT * FROM expenses WHERE trip_id = ? ORDER BY date DESC`. -/
def get_expenses_by_trip (db : DB) (tid : Nat) : List ExpenseRow :=
  sortRows (fun a b => dateDescLe a.date b.date)
    (db.expenses.filter (fun r => r.trip_id = tid))

/-- `TravelStorage.delete_trip`: `DELETE FROM trips WHERE id = ?`,
returning `rowcount > 0`.  With foreign-key enforcement off (no
`PRAGMA foreign_keys = ON` anywhere in the program) the `ON DELETE
CASCADE` clause is inert, so the expenses table is untouched. -/
def delete_trip (db : DB) (tid : Nat) : DB × Bool :=
  let remaining := db.trips.filter (fun t => t.id ≠ tid)
  ({ db with trips := remaining },
   decide (remaining.length < db.trips.length))

/-- `TravelStorage.delete_expense`: `DELETE FROM expenses WHERE id = ?`,
returning `rowcount > 0`; the trips table is not touched (no
recomputation of `actual_spent`). -/
def delete_expense (db : DB) (eid : Nat) : DB × Bool :=
  let remaining := db.expenses.filter (fun r => r.id ≠ eid)
  ({ db with expenses := remaining },
   decide (remaining.length < db.expenses.length))

/-- `TravelStorage.get_total_expenses_by_trip`:
`SELECT COALESCE(SUM(amount), 0) FROM expenses WHERE trip_id = ?`. -/
def get_total_expenses_by_trip (db : DB) (tid : Nat) : Rat :=
  ((db.expenses.filter (fun r => r.trip_id = tid)).map (fun r => r.amount)).sum

/-! ## analysis.py

`TravelAnalyzer` receives in-memory lists of trips and expenses; its
expense DataFrame has one row per expense, so `df_expenses.empty` holds
exactly when the expense list is empty. -/

/-- The analyzer over caller-supplied records. -/
structure TravelAnalyzer where
  trips : List Trip
  expenses : List Expense
deriving DecidableEq, Repr

/-- The dictionary produced by `get_trip_expense_summary` when non-empty. -/
structure Summary where
  total : Rat
  by_category : List (String × Rat)
  daily_avg : Rat
  max_expense : Rat
  expense_count : Nat
deriving DecidableEq, Repr

/-- Maximum of a list of integers (pandas `.max()` on a nonempty series;
0 serves as the value for the empty list, which the callers guard). -/
def intListMax : List Int → Int
  | [] => 0
  | x :: xs => xs.foldl (fun a b => if a < b then b else a) x

/-- Minimum of a list of integers (pandas `.min()`). -/
def intListMin : List Int → Int
  | [] => 0
  | x :: xs => xs.foldl (fun a b => if b < a then b else a) x

/-- Maximum of a list of rationals (pandas `.max()` on amounts). -/
def ratListMax : List Rat → Rat
  | [] => 0
  | x :: xs => xs.foldl (fun a b => if a < b then b else a) x

/-- `groupby('category')['amount'].sum().to_dict()`: one entry per
category present among the rows, carrying the summed amount.  (pandas
orders group keys by sorted label; the entry order is immaterial to the
properties proved here, so declaration order is used.) -/
def categoryTotals (l : List Expense) : List (String × Rat) :=
  (ExpenseCategory.all.filter (fun c => l.any (fun e => e.category = c))).map
    (fun c => (c.value,
      ((l.filter (fun e => e.category = c)).map (fun e => e.amount)).sum))

/-- `TravelAnalyzer.get_trip_expense_summary`.  Returns `none` for the
Python `return {}` taken when the whole expense table is empty; otherwise
the summary dictionary (all-zero when the trip has no expenses). -/
def get_trip_expense_summary (a : TravelAnalyzer) (tid : Nat) :
    Option Summary :=
  if a.expenses = [] then none
  else
    let trip_expenses := a.expenses.filter (fun e => e.trip_id = tid)
    if trip_expenses = [] then some ⟨0, [], 0, 0, 0⟩
    else
      let total := (trip_expenses.map (fun e => e.amount)).sum
      let ords := (trip_expenses.filterMap (fun e => e.date)).map
        (fun d => (toOrdinal d : Int))
      let daily_avg :=
        if 1 < ords.length then
          let days := intListMax ords - intListMin ords + 1
          if 0 < days then total / (days : Rat) else total
        else total
      some ⟨total, categoryTotals trip_expenses, daily_avg,
        ratListMax (trip_expenses.map (fun e => e.amount)),
        trip_expenses.length⟩

/-- One recommendation message from `get_trip_recommendations`, with the
data interpolated into the Russian format string as payload. -/
inductive Recommendation where
  | noData
  | categoryWarning (category : String) (percentage : Rat)
  | highDailyAverage (avg : Rat)
  | greatSavings (avg : Rat)
  | wellBalanced
deriving DecidableEq, Repr

/-- `TravelAnalyzer.get_trip_recommendations`: the no-data message when
the summary is empty or has no expenses; otherwise category warnings for
shares above 50%, one daily-average message, a balanced note if nothing
was emitted, truncated to the first 5 entries. -/
def get_trip_recommendations (a : TravelAnalyzer) (tid : Nat) :
    List Recommendation :=
  match get_trip_expense_summary a tid with
  | none => [Recommendation.noData]
  | some s =>
    if s.expense_count = 0 then [Recommendation.noData]
    else
      let base :=
        if 0 < s.total then
          (s.by_category.filterMap (fun p =>
            if 50 < p.2 / s.total * 100 then
              some (Recommendation.categoryWarning p.1 (p.2 / s.total * 100))
            else none)) ++
          (if 200 < s.daily_avg then [Recommendation.highDailyAverage s.daily_avg]
           else if s.daily_avg < 50 then [Recommendation.greatSavings s.daily_avg]
           else [])
        else []
      let recs := if base = [] then [Recommendation.wellBalanced] else base
      recs.take 5

/-! ## utils.py -/

/-- ASCII whitespace stripped by Python `str.strip()` (Python also strips
other Unicode whitespace; only the ASCII range is relevant here). -/
def isPySpace (c : Char) : Bool :=
  c = ' ' || c = '\t' || c = '\n' || c = '\r' ||
  c = Char.ofNat 11 || c = Char.ofNat 12

/-- Model of `str.strip()`: drop whitespace from both ends. -/
def pyStrip (cs : List Char) : List Char :=
  ((cs.dropWhile isPySpace).reverse.dropWhile isPySpace).reverse

/-- Decimal value of a digit string. -/
def digitsToNat (cs : List Char) : Nat :=
  cs.foldl (fun acc c => acc * 10 + (c.toNat - 48)) 0

/-- Split a character list at every dash (Python `s.split('-')`
semantics: adjacent or border dashes yield empty parts). -/
def splitOnDash (cs : List Char) : List (List Char) :=
  match cs with
  | [] => [[]]
  | c :: rest =>
    if c = '-' then [] :: splitOnDash rest
    else
      match splitOnDash rest with
      | [] => [[c]]
      | g :: gs => (c :: g) :: gs

/-- Model of `datetime.strptime(s, '%Y-%m-%d').date()`.  CPython compiles
the directives to the regexes `%Y ↦ \d\d\d\d`, `%m ↦ 1[0-2]|0[1-9]|[1-9]`,
`%d ↦ 3[01]|[12]\d|0[1-9]|[1-9]` with the literal dashes in between and
the whole string consumed, i.e. exactly four year digits and one- or
two-digit month (value 1..12) and day; `datetime()` then additionally
requires year ≥ 1 and day ≤ days-in-month, raising ValueError otherwise.
Note the month and day need not be zero-padded. -/
def parseDateYMD (s : String) : Option PDate :=
  match splitOnDash s.toList with
  | [ys, ms, ds] =>
    if ys.length = 4 ∧ ys.all Char.isDigit ∧
        1 ≤ ms.length ∧ ms.length ≤ 2 ∧ ms.all Char.isDigit ∧
        1 ≤ ds.length ∧ ds.length ≤ 2 ∧ ds.all Char.isDigit then
      let y := digitsToNat ys
      let m := digitsToNat ms
      let d := digitsToNat ds
      if 1 ≤ y ∧ 1 ≤ m ∧ m ≤ 12 ∧ 1 ≤ d ∧ d ≤ daysInMonth y m then
        some ⟨y, m, d⟩
      else none
    else none
  | _ => none

/-- `validate_date_range` from utils.py.  `date.today()` is an ambient
input of the program, passed here explicitly as `today`. -/
def validate_date_range (today : PDate) (start_date_str end_date_str : String) :
    Bool × String :=
  match parseDateYMD start_date_str, parseDateYMD end_date_str with
  | some sd, some ed =>
    if pdateLt ed sd then
      (false, "Дата начала не может быть позже даты окончания")
    else if pdateLt sd today then
      (false, "Дата начала не может быть в прошлом (для новых поездок)")
    else (true, "")
  | _, _ => (false, "Неверный формат даты. Используйте ГГГГ-ММ-ДД")

/-- The cleaned text of `validate_currency_amount`: strip whitespace and
turn every comma into a dot. -/
def cleanAmount (s : String) : List Char :=
  (pyStrip s.toList).map (fun c => if c = ',' then '.' else c)

/-- The anchored regex `^\d+(\.\d{1,2})?$` as a predicate: one or more
digits, optionally followed by a dot and one or two digits.  (The greedy
`\d+` is the maximal digit prefix: any shorter split would put a digit
where the regex requires a dot or the end.) -/
def matchesAmountPattern (cs : List Char) : Bool :=
  let intPart := cs.takeWhile Char.isDigit
  let rest := cs.dropWhile Char.isDigit
  decide (intPart ≠ []) &&
    (match rest with
     | [] => true
     | c :: frac =>
       c == '.' && decide (frac ≠ []) && decide (frac.length ≤ 2) &&
         frac.all Char.isDigit)

/-- Value of `float(clean_str)` on a string matching the pattern above
(monetary values modelled as exact rationals). -/
def parseAmount (cs : List Char) : Rat :=
  match cs.dropWhile Char.isDigit with
  | [] => (digitsToNat (cs.takeWhile Char.isDigit) : Rat)
  | _ :: frac =>
    (digitsToNat (cs.takeWhile Char.isDigit) : Rat) +
      (digitsToNat frac : Rat) / (10 : Rat) ^ frac.length

/-- `validate_currency_amount` from utils.py.  The `except ValueError`
branch around `float` is unreachable once the regex has matched. -/
def validate_currency_amount (s : String) : Bool × Rat × String :=
  let clean := cleanAmount s
  if matchesAmountPattern clean then
    let amount := parseAmount clean
    if amount ≤ 0 then (false, 0, "Сумма должна быть положительной")
    else (true, amount, "")
  else
    (false, 0,
     "Неверный формат суммы. Используйте числа с максимум двумя знаками после запятой")

/-- Replace every occurrence of the character `c` by the string `r`
(model of Python `str.replace` with a single-character needle). -/
def replaceChar (c : Char) (r : List Char) : List Char → List Char
  | [] => []
  | x :: xs => (if x = c then r else [x]) ++ replaceChar c r xs

/-- The double-quote character. -/
def quoteChar : Char := Char.ofNat 34

/-- The apostrophe character. -/
def aposChar : Char := Char.ofNat 39

/-- `sanitize_input` from utils.py: strip, truncate to `max_length`
(Python slicing with a non-negative bound, i.e. `take`), then HTML-escape
`&`, `<`, `>`, double quote and apostrophe, in that order. -/
def sanitize_input (s : String) (max_length : Nat) : String :=
  let t0 := pyStrip s.toList
  let t1 := if max_length < t0.length then t0.take max_length else t0
  let t2 := replaceChar '&' ['&', 'a', 'm', 'p', ';'] t1
  let t3 := replaceChar '<' ['&', 'l', 't', ';'] t2
  let t4 := replaceChar '>' ['&', 'g', 't', ';'] t3
  let t5 := replaceChar quoteChar ['&', 'q', 'u', 'o', 't', ';'] t4
  let t6 := replaceChar aposChar ['&', '#', '3', '9', ';'] t5
  ⟨t6⟩

/-- Modelled from the spec: a string in "the exact format YYYY-MM-DD" —
four digits, a dash, two digits, a dash, two digits.  Stated only to
compare the format clause of the date-validation claim with the code. -/
def isExactYMDShape (s : String) : Bool :=
  match s.toList with
  | [y1, y2, y3, y4, '-', m1, m2, '-', d1, d2] =>
    [y1, y2, y3, y4, m1, m2, d1, d2].all Char.isDigit
  | _ => false

/-! ## Theorems for models.py claims -/

/-- C3: constructing an Expense with amount ≤ 0 fails immediately with the
ValueError message, and with amount > 0 succeeds, yielding exactly the
given field values; the validation happens at construction time (the
storage layer, by contrast, inserts rows unconditionally — see the
storage theorems further below). -/
theorem expense_constructor_validates (i : Option Nat) (tid : Nat) (a : Rat)
    (cur : String) (cat : ExpenseCategory) (dt : Option PDate)
    (ds pm loc : String) :
    (a ≤ 0 → Expense.make i tid a cur cat dt ds pm loc =
      Except.error "Сумма расхода должна быть положительной") ∧
    (0 < a → Expense.make i tid a cur cat dt ds pm loc =
      Except.ok ⟨i, tid, a, cur, cat, dt, ds, pm, loc⟩) ∧
    (∀ (db : DB) (ex : Expense), (add_expense db ex).1.expenses =
      db.expenses ++ [expenseRowOf db.next_expense_id ex]) := by
  refine ⟨?_, ?_, fun db ex => rfl⟩
  · intro h
    simp [Expense.make, h]
  · intro h
    simp [Expense.make, not_le.mpr h]

/-- C3 witness: amount 100 is accepted, amount -50 is rejected. -/
theorem expense_constructor_validates_witness :
    Expense.make none 1 100 "USD" ExpenseCategory.food none "" "Наличные" "" =
      Except.ok ⟨none, 1, 100, "USD", ExpenseCategory.food, none, "", "Наличные", ""⟩ ∧
    Expense.make none 1 (-50) "USD" ExpenseCategory.other none "" "Наличные" "" =
      Except.error "Сумма расхода должна быть положительной" :=
  ⟨(expense_constructor_validates none 1 100 "USD" ExpenseCategory.food none
      "" "Наличные" "").2.1 (by norm_num),
   (expense_constructor_validates none 1 (-50) "USD" ExpenseCategory.other none
      "" "Наличные" "").1 (by norm_num)⟩

/-- C4: for a Trip with both dates present, duration_days is the day
difference (end − start) plus 1; with either date missing it is 0. -/
theorem trip_duration_days_spec (t : Trip) :
    (∀ d1 d2, t.start_date = some d1 → t.end_date = some d2 →
      t.duration_days = dateDiff d2 d1 + 1) ∧
    (t.start_date = none ∨ t.end_date = none → t.duration_days = 0) := by
  constructor
  · intro d1 d2 h1 h2
    simp [Trip.duration_days, h1, h2]
  · intro h
    rcases h with h | h <;> simp [Trip.duration_days, h]

/-- C4 witness: start 2024-06-01, end 2024-06-10 gives duration 10, and a
trip with a missing end date gives duration 0. -/
theorem trip_duration_days_spec_witness :
    ({ name := "Отпуск", start_date := some ⟨2024, 6, 1⟩,
       end_date := some ⟨2024, 6, 10⟩ : Trip }).duration_days =
      dateDiff ⟨2024, 6, 10⟩ ⟨2024, 6, 1⟩ + 1 ∧
    ({ name := "Отпуск", start_date := some ⟨2024, 6, 1⟩ : Trip }).duration_days = 0 :=
  ⟨(trip_duration_days_spec _).1 ⟨2024, 6, 1⟩ ⟨2024, 6, 10⟩ rfl rfl,
   (trip_duration_days_spec _).2 (Or.inr rfl)⟩

/-! ## Theorems for storage.py claims -/

/-- C2: after `add_expense`, every trips row whose id is the expense's
trip id stores as `actual_spent` exactly the sum of the amounts of all
expense rows recorded for that trip (the post-insert reconciliation). -/
theorem add_expense_sets_actual_spent (db : DB) (e : Expense) (tr : TripRow)
    (hmem : tr ∈ (add_expense db e).1.trips) (hid : tr.id = e.trip_id) :
    tr.actual_spent =
      (((add_expense db e).1.expenses.filter
        (fun r => r.trip_id = e.trip_id)).map (fun r => r.amount)).sum := by
  simp only [add_expense, List.mem_map] at hmem
  obtain ⟨tr0, _, rfl⟩ := hmem
  by_cases h : tr0.id = e.trip_id
  · simp [add_expense, h]
  · rw [if_neg h] at hid
    exact absurd hid h

/-- C2 witness: adding a 150 expense to a trip with zero prior spend
makes the stored actual_spent equal the recorded expense sum. -/
theorem add_expense_sets_actual_spent_witness :
    (⟨1, "Тест", "", none, none, 1000, 150, "USD", "", "Запланировано", ""⟩ :
        TripRow).actual_spent =
      (((add_expense
          ⟨[⟨1, "Тест", "", none, none, 1000, 0, "USD", "", "Запланировано", ""⟩],
            [], 2, 1⟩
          { trip_id := 1, amount := 150,
            category := ExpenseCategory.transport }).1.expenses.filter
        (fun r => r.trip_id = 1)).map (fun r => r.amount)).sum :=
  add_expense_sets_actual_spent
    ⟨[⟨1, "Тест", "", none, none, 1000, 0, "USD", "", "Запланировано", ""⟩],
      [], 2, 1⟩
    { trip_id := 1, amount := 150, category := ExpenseCategory.transport }
    ⟨1, "Тест", "", none, none, 1000, 150, "USD", "", "Запланировано", ""⟩
    (by simp [add_expense, expenseRowOf]) rfl

/-- C1: concrete run showing the cascade is NOT applied.  One trip (id 1)
with one expense; `delete_trip 1` reports success, yet the expense whose
trip_id references the deleted trip is still returned afterwards — the
schema's `ON DELETE CASCADE` never takes effect because the program never
enables SQLite foreign-key enforcement. -/
theorem delete_trip_does_not_cascade :
    (delete_trip
        ⟨[⟨1, "Тест", "", none, none, 1000, 150, "USD", "", "Запланировано", ""⟩],
          [⟨1, 1, 150, "USD", "Транспорт", none, "", "Наличные", ""⟩], 2, 2⟩
        1).2 = true ∧
    get_expenses_by_trip
        (delete_trip
          ⟨[⟨1, "Тест", "", none, none, 1000, 150, "USD", "", "Запланировано", ""⟩],
            [⟨1, 1, 150, "USD", "Транспорт", none, "", "Наличные", ""⟩], 2, 2⟩
          1).1 1 =
      [⟨1, 1, 150, "USD", "Транспорт", none, "", "Наличные", ""⟩] := by
  constructor <;> rfl

/-- Rows surviving a nodup-id filter: at most one row is removed. -/
theorem length_le_filter_ne_add_one (l : List ExpenseRow) (eid : Nat)
    (h : (l.map (fun r => r.id)).Nodup) :
    l.length ≤ (l.filter (fun r => r.id ≠ eid)).length + 1 := by
  induction l with
  | nil => simp
  | cons r rs ih =>
    simp only [List.map_cons, List.nodup_cons] at h
    obtain ⟨hr, hrs⟩ := h
    by_cases hcase : r.id = eid
    · have hall : rs.filter (fun x => x.id ≠ eid) = rs := by
        rw [List.filter_eq_self]
        intro a ha
        simp only [ne_eq, decide_eq_true_eq]
        intro hae
        exact hr (List.mem_map.mpr ⟨a, ha, by rw [hae, hcase]⟩)
      rw [List.filter_cons, if_neg (by simp [hcase]), hall, List.length_cons]
    · rw [List.filter_cons, if_pos (by simp [hcase]), List.length_cons,
        List.length_cons]
      have := ih hrs
      omega

/-- C9: `delete_expense` leaves the trips table (hence every stored
actual_spent) unchanged, removes at most one expense row — every removed
row carries the requested id — and returns true exactly when some row
had that id.  The id-uniqueness hypothesis reflects the `id INTEGER
PRIMARY KEY AUTOINCREMENT` column. -/
theorem delete_expense_frame (db : DB) (eid : Nat)
    (h : (db.expenses.map (fun r => r.id)).Nodup) :
    (delete_expense db eid).1.trips = db.trips ∧
    db.expenses.length ≤ (delete_expense db eid).1.expenses.length + 1 ∧
    (∀ r ∈ db.expenses, r ∉ (delete_expense db eid).1.expenses → r.id = eid) ∧
    ((delete_expense db eid).2 = true ↔ ∃ r ∈ db.expenses, r.id = eid) := by
  refine ⟨rfl, length_le_filter_ne_add_one db.expenses eid h, ?_, ?_⟩
  · intro r hr hnot
    by_contra hne
    exact hnot (List.mem_filter.mpr ⟨hr, by simpa using hne⟩)
  · simp only [delete_expense, decide_eq_true_eq]
    rw [List.length_filter_lt_length_iff_exists]
    simp

/-- C9 witness: deleting id 1 from a two-row expense table removes that
row only, leaves trips unchanged and reports success. -/
theorem delete_expense_frame_witness :
    (delete_expense
        ⟨[⟨1, "Тест", "", none, none, 1000, 150, "USD", "", "Запланировано", ""⟩],
          [⟨1, 1, 100, "USD", "Еда", none, "", "Наличные", ""⟩,
            ⟨2, 1, 50, "USD", "Еда", none, "", "Наличные", ""⟩], 2, 3⟩
        1).1.trips =
      [⟨1, "Тест", "", none, none, 1000, 150, "USD", "", "Запланировано", ""⟩] ∧
    (2 : Nat) ≤
      (delete_expense
        ⟨[⟨1, "Тест", "", none, none, 1000, 150, "USD", "", "Запланировано", ""⟩],
          [⟨1, 1, 100, "USD", "Еда", none, "", "Наличные", ""⟩,
            ⟨2, 1, 50, "USD", "Еда", none, "", "Наличные", ""⟩], 2, 3⟩
        1).1.expenses.length + 1 ∧
    (∀ r ∈ [(⟨1, 1, 100, "USD", "Еда", none, "", "Наличные", ""⟩ : ExpenseRow),
        ⟨2, 1, 50, "USD", "Еда", none, "", "Наличные", ""⟩],
      r ∉ (delete_expense
        ⟨[⟨1, "Тест", "", none, none, 1000, 150, "USD", "", "Запланировано", ""⟩],
          [⟨1, 1, 100, "USD", "Еда", none, "", "Наличные", ""⟩,
            ⟨2, 1, 50, "USD", "Еда", none, "", "Наличные", ""⟩], 2, 3⟩
        1).1.expenses → r.id = 1) ∧
    ((delete_expense
        ⟨[⟨1, "Тест", "", none, none, 1000, 150, "USD", "", "Запланировано", ""⟩],
          [⟨1, 1, 100, "USD", "Еда", none, "", "Наличные", ""⟩,
            ⟨2, 1, 50, "USD", "Еда", none, "", "Наличные", ""⟩], 2, 3⟩
        1).2 = true ↔
      ∃ r ∈ [(⟨1, 1, 100, "USD", "Еда", none, "", "Наличные", ""⟩ : ExpenseRow),
        ⟨2, 1, 50, "USD", "Еда", none, "", "Наличные", ""⟩], r.id = 1) :=
  delete_expense_frame
    ⟨[⟨1, "Тест", "", none, none, 1000, 150, "USD", "", "Запланировано", ""⟩],
      [⟨1, 1, 100, "USD", "Еда", none, "", "Наличные", ""⟩,
        ⟨2, 1, 50, "USD", "Еда", none, "", "Наличные", ""⟩], 2, 3⟩
    1 (by decide)

/-! ## Theorems for analysis.py claims -/

/-- C5 counterexample: with an entirely empty expense table the summary
is the empty dictionary (`{}` in Python, `none` here), not the all-zero
summary shape the claim promises for a trip without expenses. -/
theorem trip_summary_empty_table_not_zeroed :
    get_trip_expense_summary ⟨[], []⟩ 1 = none ∧
    get_trip_expense_summary ⟨[], []⟩ 1 ≠
      some ⟨0, [], 0, 0, 0⟩ := by
  refine ⟨rfl, ?_⟩
  intro h
  exact Option.noConfusion ((rfl :
    get_trip_expense_summary ⟨[], []⟩ 1 = none) ▸ h)

/-- C5 (amended): when the analyzer holds at least one expense overall
but none for the queried trip, the summary is the all-zero shape. -/
theorem trip_summary_zeroed_when_trip_has_no_expenses (a : TravelAnalyzer)
    (tid : Nat) (hne : a.expenses ≠ [])
    (hnone : a.expenses.filter (fun e => e.trip_id = tid) = []) :
    get_trip_expense_summary a tid = some ⟨0, [], 0, 0, 0⟩ := by
  simp [get_trip_expense_summary, hne, hnone]

/-- C5 witness: one expense recorded under trip 2; trip 1 gets the
zeroed summary. -/
theorem trip_summary_zeroed_witness :
    get_trip_expense_summary ⟨[], [{ trip_id := 2, amount := 5 }]⟩ 1 =
      some ⟨0, [], 0, 0, 0⟩ :=
  trip_summary_zeroed_when_trip_has_no_expenses
    ⟨[], [{ trip_id := 2, amount := 5 }]⟩ 1 (by simp) (by decide)

/-- C6: `get_trip_recommendations` always returns at most 5 entries, and
returns exactly the single no-data entry whenever the trip has no
expenses. -/
theorem trip_recommendations_capped (a : TravelAnalyzer) (tid : Nat) :
    (get_trip_recommendations a tid).length ≤ 5 ∧
    (a.expenses.filter (fun e => e.trip_id = tid) = [] →
      get_trip_recommendations a tid = [Recommendation.noData]) := by
  constructor
  · rcases hsum : get_trip_expense_summary a tid with _ | s
    · simp [get_trip_recommendations, hsum]
    · by_cases hc : s.expense_count = 0
      · simp [get_trip_recommendations, hsum, hc]
      · simp only [get_trip_recommendations, hsum, hc, if_false]
        rw [List.length_take]
        exact inf_le_left
  · intro hfil
    by_cases he : a.expenses = []
    · have hsum : get_trip_expense_summary a tid = none := by
        simp [get_trip_expense_summary, he]
      simp [get_trip_recommendations, hsum]
    · have hsum : get_trip_expense_summary a tid = some ⟨0, [], 0, 0, 0⟩ := by
        simp [get_trip_expense_summary, he, hfil]
      simp [get_trip_recommendations, hsum]

/-- C6 witness: an analyzer with no expenses yields exactly the single
no-data recommendation, within the cap of 5. -/
theorem trip_recommendations_capped_witness :
    (get_trip_recommendations ⟨[], []⟩ 1).length ≤ 5 ∧
    get_trip_recommendations ⟨[], []⟩ 1 = [Recommendation.noData] :=
  ⟨(trip_recommendations_capped ⟨[], []⟩ 1).1,
   (trip_recommendations_capped ⟨[], []⟩ 1).2 rfl⟩

/-! ## Theorems for utils.py claims -/

/-- Characters of `replaceChar c r l` come from `r` or are untouched
characters of `l` different from `c`. -/
theorem mem_replaceChar {x c : Char} {r l : List Char}
    (hx : x ∈ replaceChar c r l) : x ∈ r ∨ (x ∈ l ∧ x ≠ c) := by
  induction l with
  | nil => simp [replaceChar] at hx
  | cons a as ih =>
    simp only [replaceChar, List.mem_append] at hx
    rcases hx with hx | hx
    · by_cases hac : a = c
      · rw [if_pos hac] at hx
        exact Or.inl hx
      · rw [if_neg hac] at hx
        simp only [List.mem_singleton] at hx
        subst hx
        exact Or.inr ⟨List.mem_cons_self _ _, hac⟩
    · rcases ih hx with h | ⟨h1, h2⟩
      · exact Or.inl h
      · exact Or.inr ⟨List.mem_cons_of_mem _ h1, h2⟩

/-- A character absent from the replacement is absent from the result,
either because it is the replaced character or was absent already. -/
theorem not_mem_replaceChar {x c : Char} {r : List Char} (l : List Char)
    (hr : x ∉ r) (h : x = c ∨ x ∉ l) : x ∉ replaceChar c r l := by
  intro hx
  rcases mem_replaceChar hx with h1 | ⟨h2, h3⟩
  · exact hr h1
  · rcases h with rfl | h4
    · exact h3 rfl
    · exact h4 h2

/-- C10: for every input and maximum length, the sanitized string
contains no literal angle bracket, double quote, or apostrophe — each
has been replaced by its HTML entity. -/
theorem sanitize_input_escapes (s : String) (max_length : Nat) :
    '<' ∉ (sanitize_input s max_length).toList ∧
    '>' ∉ (sanitize_input s max_length).toList ∧
    quoteChar ∉ (sanitize_input s max_length).toList ∧
    aposChar ∉ (sanitize_input s max_length).toList := by
  have hq : quoteChar ≠ '<' ∧ quoteChar ≠ '>' ∧ aposChar ≠ '<' ∧
      aposChar ≠ '>' ∧ aposChar ≠ quoteChar := by decide
  simp only [sanitize_input, String.toList]
  refine ⟨?_, ?_, ?_, ?_⟩
  · exact not_mem_replaceChar _ (by decide) (Or.inr
      (not_mem_replaceChar _ (by decide) (Or.inr
        (not_mem_replaceChar _ (by decide) (Or.inr
          (not_mem_replaceChar _ (by decide) (Or.inl rfl)))))))
  · exact not_mem_replaceChar _ (by decide) (Or.inr
      (not_mem_replaceChar _ (by decide) (Or.inr
        (not_mem_replaceChar _ (by decide) (Or.inl rfl)))))
  · exact not_mem_replaceChar _ (by decide) (Or.inr
      (not_mem_replaceChar _ (by decide) (Or.inl rfl)))
  · exact not_mem_replaceChar _ (by decide) (Or.inl rfl)

/-- C10 witness: the guarantee instantiated at a concrete markup-laden
input. -/
theorem sanitize_input_escapes_witness :
    '<' ∉ (sanitize_input "<b>поездка</b>" 500).toList ∧
    '>' ∉ (sanitize_input "<b>поездка</b>" 500).toList ∧
    quoteChar ∉ (sanitize_input "<b>поездка</b>" 500).toList ∧
    aposChar ∉ (sanitize_input "<b>поездка</b>" 500).toList :=
  sanitize_input_escapes "<b>поездка</b>" 500

/-- takeWhile and dropWhile over a block of satisfying characters
followed by a failing one. -/
theorem takeWhile_append_of_not (p : Char → Bool) (a : List Char) (x : Char)
    (b : List Char) (ha : ∀ c ∈ a, p c = true) (hx : p x = false) :
    (a ++ x :: b).takeWhile p = a ∧ (a ++ x :: b).dropWhile p = x :: b := by
  induction a with
  | nil =>
    simp [List.takeWhile_cons, List.dropWhile_cons, hx]
  | cons y ys ih =>
    have hy : p y = true := ha y (List.mem_cons_self _ _)
    have hrest := ih (fun c hc => ha c (List.mem_cons_of_mem _ hc))
    simp [List.takeWhile_cons, List.dropWhile_cons, hy, hrest.1, hrest.2]

/-- The anchored regex predicate holds exactly on the strings of the
shape "one or more digits, optionally a dot followed by one or two
digits". -/
theorem matchesAmountPattern_iff (cs : List Char) :
    matchesAmountPattern cs = true ↔
      ((cs ≠ [] ∧ ∀ c ∈ cs, c.isDigit = true) ∨
        ∃ a b, cs = a ++ '.' :: b ∧ a ≠ [] ∧ (∀ c ∈ a, c.isDigit = true) ∧
          b ≠ [] ∧ b.length ≤ 2 ∧ ∀ c ∈ b, c.isDigit = true) := by
  constructor
  · intro h
    simp only [matchesAmountPattern, Bool.and_eq_true, decide_eq_true_eq] at h
    obtain ⟨h1, h2⟩ := h
    rcases hr : cs.dropWhile Char.isDigit with _ | ⟨c, frac⟩
    · left
      have hcs : cs.takeWhile Char.isDigit = cs := by
        have hsplit := List.takeWhile_append_dropWhile Char.isDigit cs
        rw [hr] at hsplit
        simpa using hsplit
      rw [hcs] at h1
      exact ⟨h1, fun c hc => List.mem_takeWhile_imp (hcs ▸ hc)⟩
    · right
      rw [hr] at h2
      simp only [Bool.and_eq_true, beq_iff_eq, decide_eq_true_eq,
        List.all_eq_true] at h2
      obtain ⟨⟨⟨hdot, hfne⟩, hlen⟩, hdig⟩ := h2
      refine ⟨cs.takeWhile Char.isDigit, frac, ?_, ?_, ?_, hfne, hlen, hdig⟩
      · subst hdot
        rw [← hr, List.takeWhile_append_dropWhile]
      · exact h1
      · exact fun x hx => List.mem_takeWhile_imp hx
  · rintro (⟨hne, hdig⟩ | ⟨a, b, rfl, hane, hadig, hbne, hblen, hbdig⟩)
    · have ht : cs.takeWhile Char.isDigit = cs :=
        List.takeWhile_eq_self_iff.mpr hdig
      have hd : cs.dropWhile Char.isDigit = [] :=
        List.dropWhile_eq_nil_iff.mpr hdig
      simp [matchesAmountPattern, ht, hd, hne]
    · have hdot : Char.isDigit '.' = false := by decide
      obtain ⟨ht, hd⟩ := takeWhile_append_of_not Char.isDigit a '.' b hadig hdot
      simp [matchesAmountPattern, ht, hd, hane, hbne, hblen,
        List.all_eq_true]
      exact hbdig

/-- C7: `validate_currency_amount` succeeds exactly when the trimmed,
comma-to-dot-converted text matches "one or more digits, optionally a dot
and one or two digits" and the parsed value is positive; every failure
carries value 0; and the three reference examples behave as stated. -/
theorem validate_currency_amount_spec :
    (∀ s : String,
      ((validate_currency_amount s).1 = true ↔
        ((cleanAmount s ≠ [] ∧ ∀ c ∈ cleanAmount s, c.isDigit = true) ∨
          ∃ a b, cleanAmount s = a ++ '.' :: b ∧ a ≠ [] ∧
            (∀ c ∈ a, c.isDigit = true) ∧ b ≠ [] ∧ b.length ≤ 2 ∧
            ∀ c ∈ b, c.isDigit = true) ∧
        0 < parseAmount (cleanAmount s)) ∧
      ((validate_currency_amount s).1 = false →
        (validate_currency_amount s).2.1 = 0)) ∧
    validate_currency_amount "150.50" = (true, 301 / 2, "") ∧
    (validate_currency_amount "150.555").1 = false ∧
    (validate_currency_amount "-100").1 = false := by
  have hv : ∀ s : String, validate_currency_amount s =
      if matchesAmountPattern (cleanAmount s) then
        (if parseAmount (cleanAmount s) ≤ 0 then
          (false, 0, "Сумма должна быть положительной")
        else (true, parseAmount (cleanAmount s), ""))
      else
        (false, 0,
         "Неверный формат суммы. Используйте числа с максимум двумя знаками после запятой") :=
    fun _ => rfl
  refine ⟨?_, ?_, by decide, by decide⟩
  · intro s
    constructor
    · rw [← matchesAmountPattern_iff]
      by_cases hm : matchesAmountPattern (cleanAmount s) = true
      · by_cases ha : parseAmount (cleanAmount s) ≤ 0
        · rw [hv s, if_pos hm, if_pos ha]
          constructor
          · intro h
            exact Bool.noConfusion h
          · rintro ⟨-, hp⟩
            exact absurd hp (not_lt.mpr ha)
        · rw [hv s, if_pos hm, if_neg ha]
          exact ⟨fun _ => ⟨hm, not_le.mp ha⟩, fun _ => rfl⟩
      · rw [hv s, if_neg hm]
        constructor
        · intro h
          exact Bool.noConfusion h
        · rintro ⟨h1, -⟩
          exact absurd h1 hm
    · by_cases hm : matchesAmountPattern (cleanAmount s) = true
      · by_cases ha : parseAmount (cleanAmount s) ≤ 0
        · rw [hv s, if_pos hm, if_pos ha]
          exact fun _ => rfl
        · rw [hv s, if_pos hm, if_neg ha]
          intro h
          exact Bool.noConfusion h
      · rw [hv s, if_neg hm]
        exact fun _ => rfl
  · have hm : matchesAmountPattern (cleanAmount "150.50") = true := by decide
    have h1 : digitsToNat ['1', '5', '0'] = 150 := by decide
    have h2 : digitsToNat ['5', '0'] = 50 := by decide
    have hp : parseAmount (cleanAmount "150.50") = 301 / 2 := by
      rw [show parseAmount (cleanAmount "150.50") =
          (digitsToNat ['1', '5', '0'] : Rat) +
            (digitsToNat ['5', '0'] : Rat) / (10 : Rat) ^ 2 from rfl,
        h1, h2]
      norm_num
    rw [hv "150.50", if_pos hm, if_neg (by rw [hp]; norm_num), hp]

/-- C7 witness: on the failing input "abc" the returned value is 0. -/
theorem validate_currency_amount_spec_witness :
    (validate_currency_amount "abc").2.1 = 0 :=
  (validate_currency_amount_spec.1 "abc").2 (by decide)

/-- C8 counterexample: "2099-6-1" is not in the exact YYYY-MM-DD shape,
yet `validate_date_range` accepts it (here with current date 2025-10-12)
because `strptime('%Y-%m-%d')` allows unpadded month and day. -/
theorem validate_date_range_accepts_unpadded :
    isExactYMDShape "2099-6-1" = false ∧
    validate_date_range ⟨2025, 10, 12⟩ "2099-6-1" "2099-06-10" =
      (true, "") := by
  exact ⟨by decide, by decide⟩

/-- C8 (amended): `validate_date_range` fails with the format message
when either string is rejected by the `%Y-%m-%d` parser (four year
digits, one- or two-digit month and day forming a valid calendar date);
with the range message when start is after end; with the backdating
message when start is before the current date (no override); and
otherwise succeeds with an empty message. -/
theorem validate_date_range_characterization (today : PDate) (s e : String) :
    ((parseDateYMD s = none ∨ parseDateYMD e = none) →
      validate_date_range today s e =
        (false, "Неверный формат даты. Используйте ГГГГ-ММ-ДД")) ∧
    (∀ sd ed, parseDateYMD s = some sd → parseDateYMD e = some ed →
      (pdateLt ed sd = true →
        validate_date_range today s e =
          (false, "Дата начала не может быть позже даты окончания")) ∧
      (pdateLt ed sd = false → pdateLt sd today = true →
        validate_date_range today s e =
          (false, "Дата начала не может быть в прошлом (для новых поездок)")) ∧
      (pdateLt ed sd = false → pdateLt sd today = false →
        validate_date_range today s e = (true, ""))) := by
  constructor
  · intro h
    rcases hs : parseDateYMD s with _ | sd <;>
      rcases he : parseDateYMD e with _ | ed
    · simp [validate_date_range, hs, he]
    · simp [validate_date_range, hs, he]
    · simp [validate_date_range, hs, he]
    · simp [hs, he] at h
  · intro sd ed hs he
    refine ⟨?_, ?_, ?_⟩ <;> intros <;>
      simp [validate_date_range, hs, he, *]

/-- C8 witness: a valid future range parses and succeeds with an empty
message (current date 2024-01-01). -/
theorem validate_date_range_characterization_witness :
    validate_date_range ⟨2024, 1, 1⟩ "2024-06-01" "2024-06-10" =
      (true, "") :=
  ((validate_date_range_characterization ⟨2024, 1, 1⟩ "2024-06-01"
      "2024-06-10").2 ⟨2024, 6, 1⟩ ⟨2024, 6, 10⟩ (by decide)
    (by decide)).2.2 (by decide) (by decide)

end TravelTracker
